import Mathlib

/-!
Verification of the bevy_ui subsystem specification against the sources:
`src/crates/bevy_ui/src/lib.rs` (plugin wiring and system-ordering declarations),
`src/examples/app/log_events.rs` and `src/examples/app/log_layers_ecs.rs`.

The first part embeds the scheduling declarations of `UiPlugin::build` as a
finite constraint graph over the systems it registers, together with a model
of any scheduler run that honours those constraints across frames.
-/

/-- The systems named by the scheduling declarations in
`src/crates/bevy_ui/src/lib.rs`.  `inputSystem` stands for the external
`bevy_input::InputSystem` set, `transformPropagate` for
`bevy_transform::TransformSystem::TransformPropagate`, and `renderExtract`
for the render-world extraction added by `build_ui_render` (external).  The
remaining constructors are the systems the plugin itself schedules. -/
inductive Sys : Type
  | inputSystem
  | ui_focus_system
  | measure_text_system
  | text_system
  | update_image_content_size_system
  | update_target_camera_system
  | apply_deferred
  | ui_layout_system
  | resolve_outlines_system
  | ui_stack_system
  | update_clipping_system
  | transformPropagate
  | cameraUpdateSystem
  | update_text2d_layout
  | remove_dropped_font_atlas_sets
  | renderExtract
  deriving DecidableEq, Fintype, Repr

open Sys

/-- The system-set labels of the `UiSystem` enum (lib.rs lines 59-69). -/
inductive UiSystemSet : Type
  | Layout
  | Focus
  | Stack
  | Outlines
  deriving DecidableEq, Repr

/-- Membership of the plugin's systems in the `UiSystem` sets, exactly the
`in_set` declarations of lib.rs: `ui_focus_system.in_set(UiSystem::Focus)`
(line 129), `ui_layout_system.in_set(UiSystem::Layout)` (line 185),
`resolve_outlines_system.in_set(UiSystem::Outlines)` (line 188),
`ui_stack_system.in_set(UiSystem::Stack)` (line 194). -/
def inSet (s : Sys) (l : UiSystemSet) : Bool :=
  match s, l with
  | ui_focus_system, UiSystemSet.Focus => true
  | ui_layout_system, UiSystemSet.Layout => true
  | resolve_outlines_system, UiSystemSet.Outlines => true
  | ui_stack_system, UiSystemSet.Stack => true
  | _, _ => false

/-- The schedule phase each system runs in during one frame:
`0` = `PreUpdate` (lib.rs line 128), `1` = `PostUpdate` (lines 138, 163, 178),
`2` = render extraction, which runs after the main schedules of the frame. -/
def phaseOf (s : Sys) : Nat :=
  match s with
  | inputSystem => 0
  | ui_focus_system => 0
  | renderExtract => 2
  | _ => 1

/-- The ordering edges declared in `UiPlugin::build`, each pair `(a, b)`
meaning `a` is ordered before `b`.  `before`/`after` constraints on a
`UiSystem` set are expanded through `inSet` to the unique member system.
Line references are into `src/crates/bevy_ui/src/lib.rs`. -/
def uiEdges : List (Sys × Sys) :=
  [ -- line 129: ui_focus_system.after(InputSystem)
    (inputSystem, ui_focus_system),
    -- line 141: measure_text_system.before(UiSystem::Layout)
    (measure_text_system, ui_layout_system),
    -- line 155: text_system.after(UiSystem::Layout)
    (ui_layout_system, text_system),
    -- line 156: text_system.after(bevy_text::remove_dropped_font_atlas_sets)
    (remove_dropped_font_atlas_sets, text_system),
    -- line 164: update_image_content_size_system.before(UiSystem::Layout)
    (update_image_content_size_system, ui_layout_system),
    -- line 180: update_target_camera_system.before(UiSystem::Layout)
    (update_target_camera_system, ui_layout_system),
    -- line 182: apply_deferred.after(update_target_camera_system)
    (update_target_camera_system, apply_deferred),
    -- line 183: apply_deferred.before(UiSystem::Layout)
    (apply_deferred, ui_layout_system),
    -- line 186: ui_layout_system.before(TransformSystem::TransformPropagate)
    (ui_layout_system, transformPropagate),
    -- line 189: resolve_outlines_system.after(UiSystem::Layout)
    (ui_layout_system, resolve_outlines_system),
    -- line 200: update_clipping_system.after(TransformSystem::TransformPropagate)
    (transformPropagate, update_clipping_system) ]

/-- The `ambiguous_with` declarations of `UiPlugin::build`: pairs of systems
the plugin explicitly declares unordered, so the scheduler may run them
concurrently.  Line references are into `src/crates/bevy_ui/src/lib.rs`. -/
def ambiguousPairs : List (Sys × Sys) :=
  [ -- line 146
    (measure_text_system, cameraUpdateSystem),
    -- line 150
    (measure_text_system, update_text2d_layout),
    -- line 153
    (measure_text_system, update_image_content_size_system),
    -- line 158
    (text_system, update_text2d_layout),
    -- line 171
    (update_image_content_size_system, update_text2d_layout),
    -- line 172
    (update_image_content_size_system, text_system),
    -- line 191
    (resolve_outlines_system, update_clipping_system),
    -- line 192
    (resolve_outlines_system, text_system),
    -- line 196
    (ui_stack_system, update_clipping_system),
    -- line 197
    (ui_stack_system, resolve_outlines_system),
    -- line 198
    (ui_stack_system, ui_layout_system),
    -- line 199
    (ui_stack_system, text_system) ]

/-- One declared ordering edge. -/
def sysEdge (a b : Sys) : Prop := (a, b) ∈ uiEdges

instance : DecidableRel sysEdge := fun a b => by
  unfold sysEdge; infer_instance

/-- The ordering the scheduler can derive from the declared edges: the
transitive closure of `sysEdge`.  Two systems are unordered (may run
concurrently) precisely when neither `sysBefore a b` nor `sysBefore b a`. -/
def sysBefore (a b : Sys) : Prop := Relation.TransGen sysEdge a b

/-- A run of the per-frame pipeline: `t n s` is the instant at which system
`s` completes in frame `n`.  A run is valid when it honours the schedule
phases (`PreUpdate` before `PostUpdate` before render extraction within a
frame), runs frames sequentially, and honours every declared ordering edge
within each frame. -/
structure ValidRun (t : Nat → Sys → Nat) : Prop where
  phase_mono : ∀ n : Nat, ∀ s sb : Sys, phaseOf s < phaseOf sb → t n s < t n sb
  frame_mono : ∀ n : Nat, ∀ s sb : Sys, t n s < t (n + 1) sb
  edge_order : ∀ n : Nat, ∀ a b : Sys, sysEdge a b → t n a < t n b

/-- A concrete position for each system inside one frame, consistent with the
declared constraints; used to exhibit a valid run. -/
def posOf (s : Sys) : Nat :=
  match s with
  | inputSystem => 0
  | ui_focus_system => 1
  | update_target_camera_system => 10
  | apply_deferred => 11
  | measure_text_system => 12
  | update_image_content_size_system => 13
  | remove_dropped_font_atlas_sets => 14
  | cameraUpdateSystem => 15
  | update_text2d_layout => 16
  | ui_stack_system => 17
  | ui_layout_system => 18
  | text_system => 19
  | resolve_outlines_system => 20
  | transformPropagate => 21
  | update_clipping_system => 22
  | renderExtract => 30

/-- A concrete run: frame `n` occupies the time window starting at `100 * n`. -/
def exampleRun (n : Nat) (s : Sys) : Nat := 100 * n + posOf s

theorem posOf_lt_hundred : ∀ s : Sys, posOf s < 100 := by decide

theorem posOf_phase_mono : ∀ s sb : Sys, phaseOf s < phaseOf sb → posOf s < posOf sb := by
  decide

theorem posOf_edge_mono : ∀ a b : Sys, (a, b) ∈ uiEdges → posOf a < posOf b := by
  decide

theorem exampleRun_valid : ValidRun exampleRun := by
  refine ⟨?_, ?_, ?_⟩
  · intro n s sb h
    have := posOf_phase_mono s sb h
    simp only [exampleRun]
    omega
  · intro n s sb
    have h1 := posOf_lt_hundred s
    simp only [exampleRun]
    omega
  · intro n a b h
    have := posOf_edge_mono a b h
    simp only [exampleRun]
    omega

/-- A system with no outgoing declared edge is ordered before nothing. -/
theorem not_sysBefore_of_no_out {a : Sys} (h : ∀ b : Sys, (a, b) ∉ uiEdges) :
    ∀ c : Sys, ¬ sysBefore a c := by
  intro c hc
  rcases (Relation.TransGen.head'_iff).mp hc with ⟨b, hab, _⟩
  exact h b hab

/-- A system with no incoming declared edge is ordered after nothing. -/
theorem not_sysBefore_of_no_in {c : Sys} (h : ∀ b : Sys, (b, c) ∉ uiEdges) :
    ∀ a : Sys, ¬ sysBefore a c := by
  intro a ha
  rcases (Relation.TransGen.tail'_iff).mp ha with ⟨b, _, hbc⟩
  exact h b hbc

/-- Modelled from the spec: the consumers of the paint order (`UiStack`) are
the Focus Resolver and the rendering substrate.  The bodies of
`ui_focus_system` and of the extraction systems added by `build_ui_render`
are not under src/; the spec states that the Focus Resolver "combines
resolved stacking order with current pointer position" and that `UiStack`
is exposed "to rendering substrate" as a read-only per-frame snapshot. -/
def consumersOfPaintOrder : List Sys := [ui_focus_system, renderExtract]

/-- C1: `ui_stack_system` is declared unordered with `ui_layout_system`
(the `ambiguous_with(ui_layout_system)` declaration on line 198, and no
ordering between the two is derivable from the declared edges), yet in every
valid run both complete before the consumers of the paint order read the
`UiStack` produced in that frame: `ui_focus_system` runs in `PreUpdate`, so
the `UiStack` it consumes is the one completed in the previous frame's
`PostUpdate`, and render extraction reads it in the same frame after
`PostUpdate`. -/
theorem stack_unordered_with_layout_both_before_consumers :
    (ui_stack_system, ui_layout_system) ∈ ambiguousPairs
    ∧ ¬ sysBefore ui_stack_system ui_layout_system
    ∧ ¬ sysBefore ui_layout_system ui_stack_system
    ∧ ∀ t : Nat → Sys → Nat, ValidRun t → ∀ n : Nat,
        (t n ui_stack_system < t (n + 1) ui_focus_system
          ∧ t n ui_layout_system < t (n + 1) ui_focus_system)
        ∧ (t n ui_stack_system < t n renderExtract
          ∧ t n ui_layout_system < t n renderExtract) := by
  refine ⟨by decide, ?_, ?_, ?_⟩
  · exact not_sysBefore_of_no_out (by decide) ui_layout_system
  · exact not_sysBefore_of_no_in (by decide) ui_layout_system
  · intro t ht n
    refine ⟨⟨ht.frame_mono n _ _, ht.frame_mono n _ _⟩,
      ht.phase_mono n _ _ (by decide), ht.phase_mono n _ _ (by decide)⟩

/-- Witness for C1 at the concrete run `exampleRun`, frame 0. -/
theorem stack_unordered_with_layout_both_before_consumers_witness :
    exampleRun 0 ui_stack_system < exampleRun 1 ui_focus_system
    ∧ exampleRun 0 ui_layout_system < exampleRun 0 renderExtract :=
  ⟨(stack_unordered_with_layout_both_before_consumers.2.2.2
      exampleRun exampleRun_valid 0).1.1,
    (stack_unordered_with_layout_both_before_consumers.2.2.2
      exampleRun exampleRun_valid 0).2.2⟩

/-- C2: in every valid run of every frame, `ui_focus_system` runs strictly
after `InputSystem` for that frame (the `after(InputSystem)` declaration on
line 129), and completes before the next frame samples input and before the
next frame's layout runs, so it never observes the next frame's input. -/
theorem focus_after_input_before_next_frame :
    ∀ t : Nat → Sys → Nat, ValidRun t → ∀ n : Nat,
      t n inputSystem < t n ui_focus_system
      ∧ t n ui_focus_system < t (n + 1) inputSystem
      ∧ t n ui_focus_system < t (n + 1) ui_layout_system := by
  intro t ht n
  exact ⟨ht.edge_order n _ _ (by decide), ht.frame_mono n _ _, ht.frame_mono n _ _⟩

/-- Witness for C2 at the concrete run `exampleRun`, frame 0. -/
theorem focus_after_input_before_next_frame_witness :
    exampleRun 0 inputSystem < exampleRun 0 ui_focus_system
    ∧ exampleRun 0 ui_focus_system < exampleRun 1 inputSystem :=
  ⟨(focus_after_input_before_next_frame exampleRun exampleRun_valid 0).1,
    (focus_after_input_before_next_frame exampleRun exampleRun_valid 0).2.1⟩

/-- C4: `resolve_outlines_system` runs after `UiSystem::Layout` in every
valid run (the `after(UiSystem::Layout)` declaration on line 189), it is
declared unordered with `update_clipping_system`
(`ambiguous_with(update_clipping_system)`, line 191), no ordering between it
and `update_clipping_system` is derivable from the declared edges, and no
declared edge chain ever orders it before `ui_layout_system` — so outline
geometry cannot feed back into the same frame's layout or clipping input. -/
theorem outlines_after_layout_no_feedback :
    (∀ t : Nat → Sys → Nat, ValidRun t → ∀ n : Nat,
        t n ui_layout_system < t n resolve_outlines_system)
    ∧ (resolve_outlines_system, update_clipping_system) ∈ ambiguousPairs
    ∧ ¬ sysBefore resolve_outlines_system update_clipping_system
    ∧ ¬ sysBefore update_clipping_system resolve_outlines_system
    ∧ ¬ sysBefore resolve_outlines_system ui_layout_system := by
  refine ⟨fun t ht n => ht.edge_order n _ _ (by decide), by decide, ?_, ?_, ?_⟩
  · exact not_sysBefore_of_no_out (by decide) update_clipping_system
  · exact not_sysBefore_of_no_out (by decide) resolve_outlines_system
  · exact not_sysBefore_of_no_out (by decide) ui_layout_system

/-- Witness for C4 at the concrete run `exampleRun`, frame 0. -/
theorem outlines_after_layout_no_feedback_witness :
    exampleRun 0 ui_layout_system < exampleRun 0 resolve_outlines_system :=
  outlines_after_layout_no_feedback.1 exampleRun exampleRun_valid 0

/-- C5: in every valid run of every frame, both intrinsic-size measurement
systems, `widget::measure_text_system` (the `before(UiSystem::Layout)`
declaration on line 141) and `widget::update_image_content_size_system`
(line 164), complete before `ui_layout_system`, so layout sees the frame's
intrinsic leaf sizes as already-supplied sizing overrides. -/
theorem measurement_before_layout :
    ∀ t : Nat → Sys → Nat, ValidRun t → ∀ n : Nat,
      t n measure_text_system < t n ui_layout_system
      ∧ t n update_image_content_size_system < t n ui_layout_system := by
  intro t ht n
  exact ⟨ht.edge_order n _ _ (by decide), ht.edge_order n _ _ (by decide)⟩

/-- Witness for C5 at the concrete run `exampleRun`, frame 0. -/
theorem measurement_before_layout_witness :
    exampleRun 0 measure_text_system < exampleRun 0 ui_layout_system
    ∧ exampleRun 0 update_image_content_size_system < exampleRun 0 ui_layout_system :=
  measurement_before_layout exampleRun exampleRun_valid 0

/-- C3: in every valid run of every frame, `ui_layout_system` completes before
transform propagation and `update_clipping_system` runs after transform
propagation, so clip rectangles are computed over the frame's final
world-space geometry.  This follows from the declared edges
`ui_layout_system.before(TransformSystem::TransformPropagate)` (line 186) and
`update_clipping_system.after(TransformSystem::TransformPropagate)`
(line 200). -/
theorem layout_before_transform_before_clipping :
    ∀ t : Nat → Sys → Nat, ValidRun t → ∀ n : Nat,
      t n ui_layout_system < t n transformPropagate
      ∧ t n transformPropagate < t n update_clipping_system := by
  intro t ht n
  exact ⟨ht.edge_order n _ _ (by decide), ht.edge_order n _ _ (by decide)⟩

/-- Witness for C3 at the concrete run `exampleRun`, frame 0. -/
theorem layout_before_transform_before_clipping_witness :
    exampleRun 0 ui_layout_system < exampleRun 0 transformPropagate
    ∧ exampleRun 0 transformPropagate < exampleRun 0 update_clipping_system :=
  layout_before_transform_before_clipping exampleRun exampleRun_valid 0

/-! Sibling ordering of the Stacking Resolver.  A sibling is represented as
its tree-order index paired with its explicit z-index value. -/

/-- The sibling order used by the Stacking Resolver: ascending explicit
z-index, ties broken by tree order. -/
def zOrderLE (a b : Nat × Int) : Prop :=
  a.2 < b.2 ∨ (a.2 = b.2 ∧ a.1 ≤ b.1)

instance : DecidableRel zOrderLE := fun a b => by
  unfold zOrderLE; infer_instance

instance : IsTotal (Nat × Int) zOrderLE :=
  ⟨by intro a b; unfold zOrderLE; omega⟩

instance : IsTrans (Nat × Int) zOrderLE :=
  ⟨by intro a b c hab hbc; unfold zOrderLE at hab hbc ⊢; omega⟩

/-- Modelled from the spec: the sibling-ordering step of `ui_stack_system`.
Its body lives in the crate module `stack` (lib.rs line 50), which is not
under src/; per the spec, "at each level, siblings are ordered first by
explicit z-index (ascending; unset defaults to 0), with ties broken by
insertion/tree order (stable, not re-randomized per frame)".  The input is
the list of the siblings' z-index values in tree order; the output pairs
each sibling's tree-order index with its z-index, in back-to-front paint
order (a stable sort by ascending z-index). -/
def resolveSiblings (zs : List Int) : List (Nat × Int) :=
  (zs.enum).insertionSort zOrderLE

/-- C6: three siblings with z-index values 2, 0, 1 in tree order are placed
back to front as tree-order indices 1, 2, 0, i.e. z-index order 0, 1, 2; in
general the resolved sibling order is a permutation of the tree-order
enumeration that is sorted by ascending z-index with ties broken by
tree-order index. -/
theorem siblings_ordered_by_ascending_zindex :
    resolveSiblings [2, 0, 1] = [(1, 0), (2, 1), (0, 2)]
    ∧ ∀ zs : List Int,
        (resolveSiblings zs).Perm zs.enum
        ∧ (resolveSiblings zs).Sorted zOrderLE :=
  ⟨by decide,
    fun zs => ⟨List.perm_insertionSort zOrderLE zs.enum,
      List.sorted_insertionSort zOrderLE zs.enum⟩⟩

/-! The `UiPlugin::build` sequence (lib.rs lines 84-205), as the ordered list
of operations it performs on the `App`. -/

/-- The global resources registered by the plugin (lib.rs lines 86-88). -/
inductive Res : Type
  | UiSurface
  | UiScale
  | UiStack
  deriving DecidableEq, Repr

/-- The schedule labels the plugin adds systems to. -/
inductive ScheduleLabel : Type
  | PreUpdate
  | PostUpdate
  deriving DecidableEq, Repr

/-- One operation performed by `UiPlugin::build` on the `App`. -/
inductive BuildOp : Type
  | initResource (r : Res)
  | registerType
  | addSystems (sched : ScheduleLabel) (ss : List Sys)
  | addAccessibilityPlugin
  | buildUiRender
  deriving DecidableEq, Repr

/-- The operations of `UiPlugin::build` in source order (lib.rs lines
84-205, with the `bevy_text` feature enabled): the three `init_resource`
calls (lines 86-88), 37 `register_type` calls (lines 89-126), the
`PreUpdate` focus system (lines 127-130), two more `register_type` calls
(lines 133-134), the text systems (lines 137-160), the accessibility plugin
(line 162), the image content-size system (lines 163-175), the main
`PostUpdate` batch (lines 177-202) and `build_ui_render` (line 204). -/
def uiPluginBuild : List BuildOp :=
  [BuildOp.initResource Res.UiSurface,
    BuildOp.initResource Res.UiScale,
    BuildOp.initResource Res.UiStack]
  ++ List.replicate 37 BuildOp.registerType
  ++ [BuildOp.addSystems ScheduleLabel.PreUpdate [ui_focus_system]]
  ++ List.replicate 2 BuildOp.registerType
  ++ [BuildOp.addSystems ScheduleLabel.PostUpdate [measure_text_system, text_system],
    BuildOp.addAccessibilityPlugin,
    BuildOp.addSystems ScheduleLabel.PostUpdate [update_image_content_size_system],
    BuildOp.addSystems ScheduleLabel.PostUpdate
      [update_target_camera_system, apply_deferred, ui_layout_system,
        resolve_outlines_system, ui_stack_system, update_clipping_system],
    BuildOp.buildUiRender]

/-- How many times `UiPlugin::build` initializes resource `r`. -/
def initCount (r : Res) : Nat :=
  uiPluginBuild.countP fun op =>
    match op with
    | BuildOp.initResource rr => rr == r
    | _ => false

/-- The `UiScale` resource (lib.rs lines 75-76); its `f32` value is embedded
as a rational. -/
structure UiScale : Type where
  val : ℚ
  deriving DecidableEq, Repr

/-- The `Default` impl of `UiScale` (lib.rs lines 78-82): `Self(1.0)`. -/
def UiScale.default : UiScale := ⟨1⟩

/-- Modelled from the spec: whether a per-frame system re-initializes one of
the global resources.  The bodies of the scheduled systems are not under
src/; the spec requires these resources be constructed once at startup and
mutated in place each frame, so no per-frame system re-initializes any of
them. -/
def systemReinitializes (_s : Sys) (_r : Res) : Bool := false

/-- C7: `UiPlugin::build` initializes each of `UiSurface`, `UiScale` and
`UiStack` exactly once, `UiScale` constructs with the value 1.0, and no
per-frame system re-initializes any of the three resources. -/
theorem resources_constructed_once_at_build :
    initCount Res.UiSurface = 1
    ∧ initCount Res.UiScale = 1
    ∧ initCount Res.UiStack = 1
    ∧ UiScale.default.val = 1
    ∧ ∀ s : Sys, ∀ r : Res, systemReinitializes s r = false :=
  ⟨by decide, by decide, by decide, rfl, fun _ _ => rfl⟩

/-! Embedding of `src/examples/app/log_events.rs`. -/

namespace LogEvents

/-- Colors used by `log_events.rs`: the named constants of the engine's
color type together with the `Color::rgb` constructor; `f32` channel values
are embedded as rationals. -/
inductive Color : Type
  | rgb (r g b : ℚ)
  | PURPLE
  | BLUE
  | GREEN
  | YELLOW
  | RED
  | WHITE
  deriving DecidableEq, Repr

/-- Log levels (`bevy::log::Level`). -/
inductive Level : Type
  | TRACE
  | DEBUG
  | INFO
  | WARN
  | ERROR
  deriving DecidableEq, Repr

/-- The display rendering of a level, as used by the `format!("{level} ")`
call on line 87 of log_events.rs. -/
def Level.display : Level → String
  | Level.TRACE => "TRACE"
  | Level.DEBUG => "DEBUG"
  | Level.INFO => "INFO"
  | Level.WARN => "WARN"
  | Level.ERROR => "ERROR"

/-- The fields of `TextStyle` that log_events.rs sets (`font_size`,
`color`); the font handle is left at its default and not modelled. -/
structure TextStyle : Type where
  font_size : ℚ
  color : Color
  deriving DecidableEq, Repr

/-- One section of a `Text` component. -/
structure TextSection : Type where
  value : String
  style : TextStyle
  deriving DecidableEq, Repr

/-- The fields of `bevy::log::LogEvent` destructured by `log_system`
(log_events.rs lines 42-50). -/
structure LogEvent : Type where
  message : String
  name : String
  target : String
  level : Level
  module_path : Option String
  file : Option String
  line : Option Nat
  deriving DecidableEq, Repr

/-- Rust `Debug` escaping of one character inside a string literal (quote
and backslash; control-character escapes are not exercised by any claim). -/
def escapeChar (c : Char) : String :=
  if c = '"' then "\\\"" else if c = '\\' then "\\\\" else String.singleton c

/-- Rust `Debug` rendering of a string: quoted and escaped. -/
def rustDebugStr (s : String) : String :=
  "\"" ++ String.join (s.data.map escapeChar) ++ "\""

/-- Rust `Debug` rendering of an `Option` of a string, as produced by the
`{file:?}` and `{module_path:?}` format arguments. -/
def fmtOptStr : Option String → String
  | some s => "Some(" ++ rustDebugStr s ++ ")"
  | none => "None"

/-- Rust `Debug` rendering of an `Option` of an integer, as produced by the
`{line:?}` format argument. -/
def fmtOptNat : Option Nat → String
  | some n => "Some(" ++ toString n ++ ")"
  | none => "None"

/-- The level-to-color mapping of the `match *level` on lines 90-96. -/
def levelColor : Level → Color
  | Level.TRACE => Color.PURPLE
  | Level.DEBUG => Color.BLUE
  | Level.INFO => Color.GREEN
  | Level.WARN => Color.YELLOW
  | Level.ERROR => Color.RED

/-- The first pushed section (lines 54-61): file and line. -/
def fileSection (e : LogEvent) : TextSection :=
  ⟨"file: `" ++ fmtOptStr e.file ++ "`, line: " ++ fmtOptNat e.line ++ " ",
    ⟨16, Color.rgb (7/10) (9/10) (7/10)⟩⟩

/-- The second pushed section (lines 62-69): module path. -/
def moduleSection (e : LogEvent) : TextSection :=
  ⟨"module_path: `" ++ fmtOptStr e.module_path ++ "` ",
    ⟨16, Color.rgb (7/10) (7/10) (9/10)⟩⟩

/-- The third pushed section (lines 70-77): target. -/
def targetSection (e : LogEvent) : TextSection :=
  ⟨"target: `" ++ e.target ++ "` ", ⟨16, Color.rgb (7/10) (9/10) (9/10)⟩⟩

/-- The fourth pushed section (lines 78-85): name. -/
def nameSection (e : LogEvent) : TextSection :=
  ⟨"name: `" ++ e.name ++ "` ", ⟨16, Color.rgb (9/10) (7/10) (7/10)⟩⟩

/-- The fifth pushed section (lines 86-99): the level, colored by
`levelColor`. -/
def levelSection (e : LogEvent) : TextSection :=
  ⟨Level.display e.level ++ " ", ⟨16, levelColor e.level⟩⟩

/-- The sixth pushed section (lines 100-107): the message. -/
def messageSection (e : LogEvent) : TextSection :=
  ⟨e.message ++ "\n\n", ⟨16, Color.WHITE⟩⟩

/-- The `Vec::push` operation on the section list. -/
def pushSection (t : List TextSection) (s : TextSection) : List TextSection :=
  t ++ [s]

/-- The body of the `for` loop of `log_system` (lines 42-108): six
sequential pushes per event. -/
def logLoopBody (t : List TextSection) (e : LogEvent) : List TextSection :=
  pushSection (pushSection (pushSection (pushSection (pushSection (pushSection
    t (fileSection e)) (moduleSection e)) (targetSection e)) (nameSection e))
    (levelSection e)) (messageSection e)

/-- The loop of `log_system`: fold the loop body over the events read this
frame, starting from the current section list of the `ConsoleText` text. -/
def log_system_loop (t : List TextSection) (events : List LogEvent) :
    List TextSection :=
  events.foldl logLoopBody t

/-- The six sections appended for one event, in push order. -/
def eventSections (e : LogEvent) : List TextSection :=
  [fileSection e, moduleSection e, targetSection e, nameSection e,
    levelSection e, messageSection e]

/-- The `Query::single_mut` call (line 41): yields the single match, and panics
(modelled as `none`) when there are zero or several matches. -/
def single_mut {α : Type} : List α → Option α
  | [x] => some x
  | _ => none

/-- The whole of `log_system` (lines 37-109): resolve the unique
`ConsoleText` text via `single_mut`, then run the loop over the events. -/
def log_system (texts : List (List TextSection)) (events : List LogEvent) :
    Option (List TextSection) :=
  match single_mut texts with
  | some t => some (log_system_loop t events)
  | none => none

theorem logLoopBody_eq (t : List TextSection) (e : LogEvent) :
    logLoopBody t e = t ++ eventSections e := by
  simp [logLoopBody, pushSection, eventSections]

theorem log_system_loop_eq :
    ∀ es : List LogEvent, ∀ t : List TextSection,
      log_system_loop t es = t ++ (es.map eventSections).flatten := by
  intro es
  induction es with
  | nil => intro t; simp [log_system_loop]
  | cons e es ih =>
    intro t
    have h1 : log_system_loop t (e :: es) = log_system_loop (t ++ eventSections e) es := by
      simp [log_system_loop, logLoopBody_eq]
    rw [h1, ih]
    simp

end LogEvents

namespace LogEvents

theorem flatten_eventSections_length :
    ∀ es : List LogEvent, ((es.map eventSections).flatten).length = 6 * es.length := by
  intro es
  induction es with
  | nil => simp
  | cons e es ih =>
    simp only [List.map_cons, List.flatten_cons, List.length_append, ih,
      List.length_cons]
    have h6 : (eventSections e).length = 6 := rfl
    omega

/-- C8: for every batch of events, `log_system`'s loop appends exactly the
per-event section groups to the existing text, each group being the six
sections (file/line, module path, target, name, level, message) in that
order; existing sections are preserved unchanged, the section list grows by
exactly `6 * n` for `n` events, and the level section is colored by the
total mapping TRACE to PURPLE, DEBUG to BLUE, INFO to GREEN, WARN to YELLOW
and ERROR to RED. -/
theorem log_system_appends_six_sections_per_event :
    (∀ t : List TextSection, ∀ es : List LogEvent,
        log_system_loop t es = t ++ (es.map eventSections).flatten)
    ∧ (∀ e : LogEvent, eventSections e =
        [fileSection e, moduleSection e, targetSection e, nameSection e,
          levelSection e, messageSection e])
    ∧ (∀ t : List TextSection, ∀ es : List LogEvent,
        (log_system_loop t es).length = t.length + 6 * es.length)
    ∧ (∀ t : List TextSection, ∀ es : List LogEvent,
        (log_system_loop t es).take t.length = t)
    ∧ (∀ e : LogEvent, (levelSection e).style.color = levelColor e.level)
    ∧ levelColor Level.TRACE = Color.PURPLE
    ∧ levelColor Level.DEBUG = Color.BLUE
    ∧ levelColor Level.INFO = Color.GREEN
    ∧ levelColor Level.WARN = Color.YELLOW
    ∧ levelColor Level.ERROR = Color.RED := by
  refine ⟨fun t es => log_system_loop_eq es t, fun e => rfl, ?_, ?_,
    fun e => rfl, rfl, rfl, rfl, rfl, rfl⟩
  · intro t es
    rw [log_system_loop_eq es t]
    simp [flatten_eventSections_length es]
  · intro t es
    rw [log_system_loop_eq es t]
    simp [List.take_left t ((es.map eventSections).flatten)]

/-- C10: `log_system` is total precisely when exactly one entity carries the
`ConsoleText` component: `single_mut` panics (modelled as `none`) whenever
its query matches zero or several entities. -/
theorem log_system_requires_unique_console_text :
    ∀ texts : List (List TextSection), ∀ es : List LogEvent,
      ((log_system texts es).isSome = true ↔ texts.length = 1) := by
  intro texts es
  match texts with
  | [] => simp [log_system, single_mut]
  | [t] => simp [log_system, single_mut]
  | a :: b :: r =>
    simp only [log_system, single_mut, Option.isSome_none, List.length_cons]
    constructor
    · intro h; cases h
    · intro h; omega

end LogEvents

/-! Embedding of `src/examples/app/log_layers_ecs.rs`.  A tracing event is
represented by its field list in visit order; each field is its name paired
with the Debug rendering of its value (the visitor is generic over
`&dyn Debug`, so the rendering is the only observable of the value). -/

namespace LogLayers

/-- The `LogEvent` struct of log_layers_ecs.rs (lines 24-27). -/
structure LogEvent : Type where
  message : String
  deriving DecidableEq, Repr

/-- The visitor method `CaptureLayerVisitor::record_debug` (lines 69-74): overwrites the
recorded message with the Debug rendering of the value whenever the field's
name is exactly "message", and leaves it unchanged otherwise. -/
def record_debug (acc : Option String) (f : String × String) : Option String :=
  if f.1 = "message" then some f.2 else acc

/-- The call `event.record(&mut CaptureLayerVisitor(&mut message))` (line 55): visit
every field of the event in order, starting from no recorded message. -/
def visit_fields (fields : List (String × String)) : Option String :=
  fields.foldl record_debug none

/-- The handler `CaptureLayer::on_event` (lines 46-63): the list of `LogEvent`s sent
over the channel for one tracing event — one if a message was recorded,
none otherwise. -/
def on_event (fields : List (String × String)) : List LogEvent :=
  match visit_fields fields with
  | some m => [⟨m⟩]
  | none => []

theorem foldl_record_isSome :
    ∀ fields : List (String × String), ∀ acc : Option String,
      (fields.foldl record_debug acc).isSome
        = (acc.isSome || fields.any fun f => f.1 == "message") := by
  intro fields
  induction fields with
  | nil => intro acc; simp
  | cons f fs ih =>
    intro acc
    simp only [List.foldl_cons, List.any_cons, ih (record_debug acc f)]
    by_cases h : f.1 = "message"
    · simp [record_debug, h]
    · have hb : (f.1 == "message") = false := beq_eq_false_iff_ne.mpr h
      simp [record_debug, h, hb]

theorem foldl_record_mem :
    ∀ fields : List (String × String), ∀ acc : Option String, ∀ m : String,
      fields.foldl record_debug acc = some m →
        acc = some m ∨ ("message", m) ∈ fields := by
  intro fields
  induction fields with
  | nil => intro acc m h; exact Or.inl h
  | cons f fs ih =>
    intro acc m h
    rcases ih (record_debug acc f) m h with h1 | h1
    · by_cases hf : f.1 = "message"
      · right
        rw [record_debug, if_pos hf] at h1
        have hv : f.2 = m := Option.some.inj h1
        have : ("message", m) = f := by
          cases f
          simp only [Prod.mk.injEq]
          exact ⟨hf.symm, hv.symm⟩
        rw [this]
        exact List.mem_cons_self f fs
      · rw [record_debug, if_neg hf] at h1
        exact Or.inl h1
    · exact Or.inr (List.mem_cons_of_mem f h1)

/-- C9: `CaptureLayer::on_event` sends a `LogEvent` over its channel exactly
when the tracing event carries a field named "message" (one event sent, none
otherwise), and any sent message is the Debug rendering of such a field's
value as recorded by `CaptureLayerVisitor`. -/
theorem on_event_sends_iff_message_field :
    ∀ fields : List (String × String),
      ((on_event fields).length
          = if fields.any (fun f => f.1 == "message") then 1 else 0)
      ∧ (on_event fields = []
          ∨ ∃ v : String, ("message", v) ∈ fields ∧ on_event fields = [⟨v⟩]) := by
  intro fields
  have hs := foldl_record_isSome fields none
  simp only [Option.isSome_none, Bool.false_or] at hs
  constructor
  · cases hv : visit_fields fields with
    | none =>
      have : (fields.any fun f => f.1 == "message") = false := by
        rw [← hs]; simp [visit_fields] at hv ⊢; rw [hv]
      simp [on_event, hv, this]
    | some m =>
      have : (fields.any fun f => f.1 == "message") = true := by
        rw [← hs]; simp [visit_fields] at hv ⊢; rw [hv]; rfl
      simp [on_event, hv, this]
  · cases hv : visit_fields fields with
    | none => left; simp [on_event, hv]
    | some m =>
      right
      refine ⟨m, ?_, by simp [on_event, hv]⟩
      rcases foldl_record_mem fields none m hv with h1 | h1
      · cases h1
      · exact h1

end LogLayers
